import Mathlib

/-!
Verification of the line-delimited JSON-RPC 2.0 protocol engine of
`mcp-server-aws.js` against its natural-language specification.

The embedding mirrors the source file:
  * `Json` is the value space of parsed input lines and of every payload.
  * JavaScript-specific evaluation rules the dispatcher relies on are made
    explicit: `truthy` (ToBoolean), `jsF` (property read on an object),
    `field?` (property read that raises a TypeError on `null`/`undefined`
    bases), `jsToString` (string coercion in a template literal), `jsOr`
    (the `||` operator).
  * `tools` is the static catalog (source lines 54-495), `toolHandlers` the
    handler table's own seven entries (lines 530-684); the property read
    `toolHandlers[toolName]` of line 736 walks the prototype chain, so
    `lookupTool` falls through own keys to the `Object.prototype` members
    (`objectProtoMembers`), whose execution in a handler's place is
    `protoInvoke`.
  * `dispatchBody` is the `rl.on('line')` callback's try-block (lines
    687-760), `processLine` the whole callback including its catch (761-764),
    `processLines` the transport loop over a stream of lines.
  * The diagnostic `log` (lines 18-22) appends to a file with no exception
    handling of its own; a single flag `logOk` says whether appends to the
    log file succeed.  A raised exception that no catch swallows (the Node
    callback rejects, killing the process) is the `.error ()` outcome.
  * External effects (the AWS SDK calls, the clock, `Date` parsing) enter
    through a `World` of oracles; handlers are state transformers over the
    process-wide AWS region configuration `St`.
-/

namespace AwsMcp

/-- A parsed JSON value (numbers as integers; no claim involves fractional
numeric data). -/
inductive Json where
  | null
  | bool (b : Bool)
  | num (n : Int)
  | str (s : String)
  | arr (elems : List Json)
  | obj (fields : List (String × Json))

/-- Property read `base[k]` on a value known not to be `null`/`undefined`:
objects yield their own entry (`none` = JavaScript `undefined`), primitives
and arrays have none of the property names the server reads. -/
def jsF : Json → String → Option Json
  | .obj fs, k => fs.lookup k
  | _, _ => none

/-- Property read `base.k` where `base` may be `undefined` (`none`) or
`null`: those two raise a TypeError, every other base yields `jsF`. -/
def field? : Option Json → String → Except Unit (Option Json)
  | none, _ => .error ()
  | some .null, _ => .error ()
  | some v, k => .ok (jsF v k)

/-- JavaScript ToBoolean on a possibly-`undefined` value. -/
def truthy : Option Json → Bool
  | none => false
  | some .null => false
  | some (.bool b) => b
  | some (.num n) => n != 0
  | some (.str s) => s != ""
  | some (.arr _) => true
  | some (.obj _) => true

/-- The `||` operator: the left operand when truthy, else the right. -/
def jsOr (a : Option Json) (b : Json) : Json :=
  if truthy a then a.getD b else b

/-- Builds a JavaScript object literal: a field whose value is `undefined`
is dropped, matching what `JSON.stringify` leaves of it. -/
def objOpt (fs : List (String × Option Json)) : Json :=
  .obj (fs.filterMap (fun p => p.2.map (fun v => (p.1, v))))

mutual

/-- String coercion of a value in a template literal (`${v}`). -/
def jsToStr : Json → String
  | .null => "null"
  | .bool b => if b then "true" else "false"
  | .num n => toString n
  | .str s => s
  | .arr xs => jsJoin xs
  | .obj _ => "[object Object]"

/-- `Array.prototype.toString`: elements joined by commas, `null` elements
rendered empty. -/
def jsJoin : List Json → String
  | [] => ""
  | [x] => jsElem x
  | x :: xs => jsElem x ++ "," ++ jsJoin xs

/-- One array element under `join`: `null` becomes the empty string. -/
def jsElem : Json → String
  | .null => ""
  | .bool b => if b then "true" else "false"
  | .num n => toString n
  | .str s => s
  | .arr xs => jsJoin xs
  | .obj _ => "[object Object]"

end

/-- String coercion of a possibly-`undefined` value (`${toolName}` when the
name is absent prints `undefined`). -/
def jsToString : Option Json → String
  | none => "undefined"
  | some v => jsToStr v

/-- Optional chaining `request.k1?.k2`: `undefined` when the first step gives
`null`/`undefined`, otherwise an ordinary property read. -/
def jsOptChain (request : Json) (k1 k2 : String) : Option Json :=
  match jsF request k1 with
  | none => none
  | some .null => none
  | some p => jsF p k2

/-- One emitted output line, as the envelope `sendResponse` (source lines
768-776) or `sendErrorResponse` (lines 779-790) serializes: an `Option`
slot is `none` when the JavaScript value was `undefined` or otherwise
unserializable (a function) — `JSON.stringify` then drops the key — and
`some .null` when it was `null`.  The seven real handlers always return an
object, but an inherited `Object.prototype` member executed in a handler's
place can resolve with `undefined` or a function. -/
inductive Out where
  | success (id : Option Json) (result : Option Json)
  | failure (id : Option Json) (code : Int) (message : String)

/-- The process-wide mutable AWS configuration the handlers share:
`AWS.config.region`, set to `us-west-2` at startup (line 31) and rewritten by
`handleRegion` whenever an invocation carries a truthy `region` parameter. -/
structure St where
  region : Json

/-- External collaborators: one oracle per AWS SDK call the handlers make
(taking the active region and the call's parameter object), plus the clock
and `Date`-string parsing used by the CloudWatch handler.  An `.error` is a
rejected promise carrying the error's message. -/
structure World where
  ec2DescribeInstances : Json → Json → Except String Json
  s3ListBuckets : Json → Except String Json
  s3ListObjectsV2 : Json → Json → Except String Json
  lambdaListFunctions : Json → Except String Json
  dynamoListTables : Json → Except String Json
  cwGetMetricStatistics : Json → Json → Except String Json
  nowMs : Int
  parseDateMs : String → Option Int

/-- A tool handler: from the parameter object, the shared configuration and
the outside world to a settled promise (`.error` = thrown/rejected with that
message) and the configuration it leaves behind. -/
def Handler : Type :=
  Json → St → World → Except String Json × St

/-- `handleRegion` (source lines 498-504): a truthy `params.region` is
written to the shared configuration and returned; otherwise the configured
region, defaulting to `us-west-2`. -/
def handleRegion (params : Json) (st : St) : Json × St :=
  let r := jsF params "region"
  if truthy (some params) && truthy r then
    (r.getD .null, { region := r.getD .null })
  else
    (if truthy (some st.region) then st.region else .str "us-west-2", st)

/-- The `ping` handler (source lines 531-533): ignores its parameters,
returns `{result: "pong"}`, touches nothing. -/
def pingHandler : Handler := fun _ st _ =>
  (.ok (.obj [("result", .str "pong")]), st)

/-- Instances summed across reservations (source lines 546-547).  The SDK
resolves `describeInstances` with `Reservations` holding arrays of
`Instances`; responses outside that documented shape are abstracted as
contributing zero. -/
def instanceCount : Option Json → Int
  | some (.arr rs) =>
    rs.foldl
      (fun c r =>
        c + (match jsF r "Instances" with
             | some (.arr is) => (is.length : Int)
             | _ => 0))
      0
  | _ => 0

/-- `aws.ec2.describeInstances` (source lines 535-553). -/
def ec2DescribeInstancesHandler : Handler := fun params st w =>
  let (region, st') := handleRegion params st
  let filters := jsOr (jsF params "filters") (.arr [])
  match w.ec2DescribeInstances region (.obj [("Filters", filters)]) with
  | .error m => (.error ("EC2 Error: " ++ m), st')
  | .ok result =>
    (.ok (.obj [("result", objOpt [
        ("region", some region),
        ("reservations", jsF result "Reservations"),
        ("instanceCount", some (.num (instanceCount (jsF result "Reservations"))))])]),
     st')

/-- `aws.s3.listBuckets` (source lines 555-570). -/
def s3ListBucketsHandler : Handler := fun params st w =>
  let (region, st') := handleRegion params st
  match w.s3ListBuckets region with
  | .error m => (.error ("S3 Error: " ++ m), st')
  | .ok result =>
    (.ok (.obj [("result", objOpt [
        ("region", some region),
        ("buckets", jsF result "Buckets")])]),
     st')

/-- `aws.s3.listObjects` (source lines 572-602): validates `bucket` itself,
throwing `Bucket name is required` before any remote call. -/
def s3ListObjectsHandler : Handler := fun params st w =>
  let (region, st') := handleRegion params st
  if !truthy (jsF params "bucket") then
    (.error "Bucket name is required", st')
  else
    let listParams := objOpt [
      ("Bucket", jsF params "bucket"),
      ("Prefix", if truthy (jsF params "prefix") then jsF params "prefix" else none)]
    match w.s3ListObjectsV2 region listParams with
    | .error m => (.error ("S3 Error: " ++ m), st')
    | .ok result =>
      (.ok (.obj [("result", objOpt [
          ("region", some region),
          ("bucket", jsF params "bucket"),
          ("prefix", some (jsOr (jsF params "prefix") (.str ""))),
          ("objects", jsF result "Contents"),
          ("count", jsF result "KeyCount")])]),
       st')

/-- `aws.lambda.listFunctions` (source lines 604-619). -/
def lambdaListFunctionsHandler : Handler := fun params st w =>
  let (region, st') := handleRegion params st
  match w.lambdaListFunctions region with
  | .error m => (.error ("Lambda Error: " ++ m), st')
  | .ok result =>
    (.ok (.obj [("result", objOpt [
        ("region", some region),
        ("functions", jsF result "Functions")])]),
     st')

/-- `aws.dynamodb.listTables` (source lines 621-636). -/
def dynamoListTablesHandler : Handler := fun params st w =>
  let (region, st') := handleRegion params st
  match w.dynamoListTables region with
  | .error m => (.error ("DynamoDB Error: " ++ m), st')
  | .ok result =>
    (.ok (.obj [("result", objOpt [
        ("region", some region),
        ("tables", jsF result "TableNames")])]),
     st')

/-- `parseInt` on the sliced digit run of a relative-time string: optional
sign then a decimal-digit prefix; no leading digit is `NaN` (`none`). -/
def jsParseInt (s : String) : Option Int :=
  let t := s.trimLeft
  let (neg, u) :=
    if t.startsWith "-" then (true, t.drop 1)
    else if t.startsWith "+" then (false, t.drop 1)
    else (false, t)
  let digits := u.takeWhile Char.isDigit
  if digits.isEmpty then none
  else
    let v : Int := digits.foldl (fun a c => a * 10 + (c.toNat - 48 : Int)) 0
    some (if neg then -v else v)

/-- `parseRelativeTime` (source lines 507-527) at clock `nowMs`, as a `Date`
in milliseconds; `none` collapses the function's `null` results and the
invalid date a `NaN` offset would give. -/
def parseRelativeTime (nowMs : Int) (timeStr : String) : Option Int :=
  if !(timeStr != "") || !timeStr.startsWith "-" then none
  else
    let unit := timeStr.takeRight 1
    match jsParseInt ((timeStr.drop 1).dropRight 1) with
    | none => none
    | some value =>
      if unit = "h" then some (nowMs - value * 60 * 60 * 1000)
      else if unit = "d" then some (nowMs - value * 24 * 60 * 60 * 1000)
      else if unit = "m" then some (nowMs - value * 60 * 1000)
      else none

/-- `new Date(v)`: strings go through date parsing, numbers are epoch
milliseconds, anything else is an invalid date (`none`). -/
def jsNewDate (w : World) : Json → Option Int
  | .str s => w.parseDateMs s
  | .num n => some n
  | .bool b => some (if b then 1 else 0)
  | _ => none

/-- Start time of a CloudWatch query (source lines 652-654): this sits inside
the handler's try, and a truthy non-string `startTime` makes
`params.startTime.startsWith` raise. -/
def cwStartTime (w : World) (params : Json) : Except String (Option Int) :=
  match jsF params "startTime" with
  | some (.str s) =>
    if s != "" then
      .ok (if s.startsWith "-" then parseRelativeTime w.nowMs s else w.parseDateMs s)
    else .ok (some (w.nowMs - 3600 * 1000))
  | v =>
    if truthy v then .error "params.startTime.startsWith is not a function"
    else .ok (some (w.nowMs - 3600 * 1000))

/-- End time of a CloudWatch query (source lines 656-658). -/
def cwEndTime (w : World) (params : Json) : Option Int :=
  let v := jsF params "endTime"
  if truthy v then jsNewDate w (v.getD .null) else some w.nowMs

/-- A `Date` as the SDK sees it in a parameter object: epoch milliseconds,
or `null`/an invalid date. -/
def dateJson : Option Int → Json
  | some ms => .num ms
  | none => .null

/-- `aws.cloudwatch.getMetricStatistics` (source lines 638-683): validates
`namespace` and `metricName` itself (throwing before the try), then builds
`metricParams` with defaulted dimensions, period and statistics. -/
def cwGetMetricStatisticsHandler : Handler := fun params st w =>
  let (region, st') := handleRegion params st
  if !truthy (jsF params "namespace") then
    (.error "Namespace is required", st')
  else if !truthy (jsF params "metricName") then
    (.error "Metric name is required", st')
  else
    match cwStartTime w params with
    | .error m => (.error ("CloudWatch Error: " ++ m), st')
    | .ok startTime =>
      let metricParams := objOpt [
        ("Namespace", jsF params "namespace"),
        ("MetricName", jsF params "metricName"),
        ("Dimensions", some (jsOr (jsF params "dimensions") (.arr []))),
        ("StartTime", some (dateJson startTime)),
        ("EndTime", some (dateJson (cwEndTime w params))),
        ("Period", some (jsOr (jsF params "period") (.num 300))),
        ("Statistics", some (jsOr (jsF params "statistics") (.arr [.str "Average"])))]
      match w.cwGetMetricStatistics region metricParams with
      | .error m => (.error ("CloudWatch Error: " ++ m), st')
      | .ok result =>
        (.ok (.obj [("result", objOpt [
            ("region", some region),
            ("namespace", jsF params "namespace"),
            ("metricName", jsF params "metricName"),
            ("datapoints", jsF result "Datapoints"),
            ("label", jsF result "Label")])]),
         st')

/-- The *own* properties of the handler table object literal `toolHandlers`
(source lines 530-684): its seven declared keys.  The full JavaScript
property read `toolHandlers[toolName]` also walks the prototype chain —
see `objectProtoMembers` and `lookupTool`. -/
def toolHandlers : String → Option Handler := fun name =>
  if name = "ping" then some pingHandler
  else if name = "aws.ec2.describeInstances" then some ec2DescribeInstancesHandler
  else if name = "aws.s3.listBuckets" then some s3ListBucketsHandler
  else if name = "aws.s3.listObjects" then some s3ListObjectsHandler
  else if name = "aws.lambda.listFunctions" then some lambdaListFunctionsHandler
  else if name = "aws.dynamodb.listTables" then some dynamoListTablesHandler
  else if name = "aws.cloudwatch.getMetricStatistics" then some cwGetMetricStatisticsHandler
  else none

/-- The seven keys of the handler table, in declaration order. -/
def registeredNames : List String := [
  "ping",
  "aws.ec2.describeInstances",
  "aws.s3.listBuckets",
  "aws.s3.listObjects",
  "aws.lambda.listFunctions",
  "aws.dynamodb.listTables",
  "aws.cloudwatch.getMetricStatistics"]

/-- The property keys a plain object literal inherits from
`Object.prototype` (ECMA-262): eleven function members plus the `__proto__`
accessor.  All of their values are truthy, so a `params.name` equal to one
of these passes the line-736 existence check `!toolHandlers[toolName]`
instead of yielding the not-found failure. -/
def objectProtoMembers : List String := [
  "constructor",
  "hasOwnProperty",
  "isPrototypeOf",
  "propertyIsEnumerable",
  "toLocaleString",
  "toString",
  "valueOf",
  "__defineGetter__",
  "__defineSetter__",
  "__lookupGetter__",
  "__lookupSetter__",
  "__proto__"]

/-- Executing an inherited `Object.prototype` member in a handler's place
(source line 743, `toolHandlers[toolName](toolParams)` with the table as
receiver), per ECMA-262.  None of these touch the region configuration or
the outside world.  A `.ok none` result is `undefined` or a function value,
which `JSON.stringify` drops from the response; `valueOf` returns the
receiver, whose seven function-valued entries likewise serialize away;
`__proto__` reads as `Object.prototype`, which is not callable, and the
`__define…__` members demand a function second argument — TypeError texts
as Node's V8 prints them. -/
def protoInvoke (name : String) (arg : Json) : Except String (Option Json) :=
  if name = "toString" || name = "toLocaleString" then
    .ok (some (.str "[object Object]"))
  else if name = "valueOf" then
    .ok (some (.obj []))
  else if name = "hasOwnProperty" || name = "propertyIsEnumerable" then
    .ok (some (.bool (registeredNames.contains (jsToStr arg))))
  else if name = "isPrototypeOf" then
    .ok (some (.bool false))
  else if name = "constructor" then
    .ok (some (match arg with | .null => .obj [] | v => v))
  else if name = "__defineGetter__" then
    .error "Getter must be a function: undefined"
  else if name = "__defineSetter__" then
    .error "Setter must be a function: undefined"
  else if name = "__lookupGetter__" || name = "__lookupSetter__" then
    .ok none
  else
    .error "toolHandlers[toolName] is not a function"

/-- What the property read `toolHandlers[toolName]` finds: one of the seven
own entries, or a member inherited from `Object.prototype`. -/
inductive TableHit where
  | own (h : Handler)
  | inherited (name : String)

/-- One entry of the static catalog: a declared name, description and
JSON-Schema-shaped `parameters` object. -/
structure Tool where
  name : String
  description : String
  parameters : Json

/-- The `region` property shared by most catalog entries. -/
def regionProp : String × Json :=
  ("region", .obj [
    ("type", .str "string"),
    ("description", .str "AWS region (e.g., us-west-2)")])

/-- A string-typed property with the given description. -/
def strProp (descr : String) : Json :=
  .obj [("type", .str "string"), ("description", .str descr)]

/-- A number-typed property with the given description. -/
def numProp (descr : String) : Json :=
  .obj [("type", .str "number"), ("description", .str descr)]

/-- An array-typed property with the given description and item schema. -/
def arrProp (descr : String) (items : Json) : Json :=
  .obj [
    ("type", .str "array"),
    ("description", .str descr),
    ("items", items)]

/-- A `parameters` schema object with the given properties and required
names. -/
def paramSchema (props : List (String × Json)) (req : List String) : Json :=
  .obj [
    ("type", .str "object"),
    ("properties", .obj props),
    ("required", .arr (req.map Json.str))]

/-- The static catalog `tools` (source lines 54-495), in declaration
order. -/
def tools : List Tool := [
  { name := "aws.ec2.describeInstances",
    description := "List EC2 instances and their details",
    parameters := paramSchema [
      regionProp,
      ("filters", arrProp "Optional filters to apply" (.obj [
        ("type", .str "object"),
        ("properties", .obj [
          ("Name", .obj [("type", .str "string")]),
          ("Values", .obj [
            ("type", .str "array"),
            ("items", .obj [("type", .str "string")])])])]))] [] },
  { name := "aws.ec2.describeVpcs",
    description := "List VPCs and their details",
    parameters := paramSchema [
      regionProp,
      ("vpcIds", arrProp "Optional VPC IDs to filter"
        (.obj [("type", .str "string")]))] [] },
  { name := "aws.ec2.describeSecurityGroups",
    description := "List security groups and their details",
    parameters := paramSchema [
      regionProp,
      ("groupIds", arrProp "Optional security group IDs to filter"
        (.obj [("type", .str "string")]))] [] },
  { name := "aws.s3.listBuckets",
    description := "List all S3 buckets",
    parameters := paramSchema [regionProp] [] },
  { name := "aws.s3.listObjects",
    description := "List objects in an S3 bucket",
    parameters := paramSchema [
      regionProp,
      ("bucket", strProp "S3 bucket name"),
      ("prefix", strProp "Optional prefix to filter objects")] ["bucket"] },
  { name := "aws.lambda.listFunctions",
    description := "List Lambda functions",
    parameters := paramSchema [regionProp] [] },
  { name := "aws.lambda.getFunctionConfiguration",
    description := "Get detailed configuration for a Lambda function",
    parameters := paramSchema [
      regionProp,
      ("functionName", strProp "Name or ARN of the Lambda function")]
      ["functionName"] },
  { name := "aws.dynamodb.listTables",
    description := "List DynamoDB tables",
    parameters := paramSchema [regionProp] [] },
  { name := "aws.dynamodb.describeTable",
    description := "Get detailed information about a DynamoDB table",
    parameters := paramSchema [
      regionProp,
      ("tableName", strProp "Name of the DynamoDB table")] ["tableName"] },
  { name := "aws.cloudwatch.getMetricStatistics",
    description := "Get CloudWatch metrics for a resource",
    parameters := paramSchema [
      regionProp,
      ("namespace", strProp "Metric namespace (e.g., AWS/EC2)"),
      ("metricName", strProp "Name of the metric"),
      ("dimensions", arrProp "Dimensions for the metric" (.obj [
        ("type", .str "object"),
        ("properties", .obj [
          ("Name", .obj [("type", .str "string")]),
          ("Value", .obj [("type", .str "string")])])])),
      ("startTime", strProp
        "Start time for metrics (ISO format or relative time like -3h)"),
      ("endTime", strProp
        "End time for metrics (ISO format or current time by default)"),
      ("period", numProp "Period in seconds (60, 300, 3600, etc.)"),
      ("statistics", arrProp
        "Statistics to retrieve (Average, Maximum, Minimum, SampleCount, Sum)"
        (.obj [("type", .str "string")]))]
      ["namespace", "metricName"] },
  { name := "aws.cloudwatch.describeAlarms",
    description := "List CloudWatch alarms",
    parameters := paramSchema [
      regionProp,
      ("alarmNames", arrProp "Optional alarm names to filter"
        (.obj [("type", .str "string")])),
      ("alarmTypes", arrProp "Optional alarm types to filter" (.obj [
        ("type", .str "string"),
        ("enum", .arr [.str "MetricAlarm", .str "CompositeAlarm"])])),
      ("stateValue", .obj [
        ("type", .str "string"),
        ("description", .str "Optional state to filter by (OK, ALARM, INSUFFICIENT_DATA)"),
        ("enum", .arr [.str "OK", .str "ALARM", .str "INSUFFICIENT_DATA"])])] [] },
  { name := "aws.iam.listUsers",
    description := "List IAM users",
    parameters := paramSchema [
      ("pathPrefix", strProp "Optional path prefix to filter users"),
      ("maxItems", numProp "Maximum number of items to return")] [] },
  { name := "aws.iam.listRoles",
    description := "List IAM roles",
    parameters := paramSchema [
      ("pathPrefix", strProp "Optional path prefix to filter roles"),
      ("maxItems", numProp "Maximum number of items to return")] [] },
  { name := "aws.rds.describeDBInstances",
    description := "List RDS database instances",
    parameters := paramSchema [
      regionProp,
      ("dbInstanceIdentifier", strProp "Optional database instance identifier")] [] },
  { name := "aws.sns.listTopics",
    description := "List SNS topics",
    parameters := paramSchema [regionProp] [] },
  { name := "aws.sqs.listQueues",
    description := "List SQS queues",
    parameters := paramSchema [
      regionProp,
      ("queueNamePrefix", strProp "Optional prefix to filter queue names")] [] },
  { name := "aws.cloudformation.listStacks",
    description := "List CloudFormation stacks",
    parameters := paramSchema [
      regionProp,
      ("stackStatusFilter", arrProp "Optional status filters"
        (.obj [("type", .str "string")]))] [] },
  { name := "aws.route53.listHostedZones",
    description := "List Route53 hosted zones",
    parameters := paramSchema [
      ("maxItems", numProp "Maximum number of items to return")] [] },
  { name := "aws.cloudfront.listDistributions",
    description := "List CloudFront distributions",
    parameters := paramSchema [
      ("maxItems", numProp "Maximum number of items to return")] [] },
  { name := "aws.ecs.listClusters",
    description := "List ECS clusters",
    parameters := paramSchema [regionProp] [] },
  { name := "aws.eks.listClusters",
    description := "List EKS clusters",
    parameters := paramSchema [regionProp] [] },
  { name := "ping",
    description := "Responds with pong",
    parameters := paramSchema [] [] }]

/-- `sendResponse` (source lines 768-776): logs, then writes one success
envelope; a failing log append raises out of it.  `result` is `none` when
the value to echo was `undefined` or a function, whose key the
serialization drops. -/
def sendResponse (logOk : Bool) (id : Option Json) (result : Option Json) :
    Except Unit (List Out) :=
  if logOk then .ok [.success id result] else .error ()

/-- `sendErrorResponse` (source lines 779-790): logs, then writes one error
envelope; a failing log append raises out of it. -/
def sendErrorResponse (logOk : Bool) (id : Option Json) (code : Int)
    (message : String) : Except Unit (List Out) :=
  if logOk then .ok [.failure id code message] else .error ()

/-- The `tools/list` reshaping of one catalog entry (source lines 716-725). -/
def reshapeTool (t : Tool) : Json :=
  .obj [
    ("name", .str t.name),
    ("description", .str t.description),
    ("inputSchema", .obj [
      ("type", .str "object"),
      ("properties", jsOr (jsF t.parameters "properties") (.obj [])),
      ("required", jsOr (jsF t.parameters "required") (.arr [])),
      ("additionalProperties", .bool false)])]

/-- The `initialize` branch (source lines 699-711): reads
`request.params.protocolVersion`, which raises when `params` is absent or
`null`, then answers with the handshake payload. -/
def initializeBranch (request : Json) (logOk : Bool) (st : St) :
    Except Unit (List Out) × St :=
  match field? (jsF request "params") "protocolVersion" with
  | .error _ => (.error (), st)
  | .ok pv =>
    (sendResponse logOk (jsF request "id") (some (objOpt [
        ("protocolVersion", pv),
        ("capabilities", some (.obj [("tools", .obj [])])),
        ("serverInfo", some (.obj [
          ("name", .str "aws-mcp-server"),
          ("version", .str "1.0.0")]))])),
     st)

/-- The argument a `tools/invoke` handler receives (source line 733):
`request.params?.parameters || {}`. -/
def invokeArg (request : Json) : Json :=
  jsOr (jsOptChain request "params" "parameters") (.obj [])

/-- The registry consultation of the `tools/invoke` branch (source line 736):
`!toolName || !toolHandlers[toolName]` — a falsy name short-circuits; any
other value indexes the table by its string coercion, the property read
finding an own entry first and otherwise walking up to `Object.prototype`,
whose members are all truthy. -/
def lookupTool (request : Json) : Option TableHit :=
  if truthy (jsOptChain request "params" "name") then
    match toolHandlers (jsToString (jsOptChain request "params" "name")) with
    | some h => some (.own h)
    | none =>
      if objectProtoMembers.contains (jsToString (jsOptChain request "params" "name"))
      then some (.inherited (jsToString (jsOptChain request "params" "name")))
      else none
  else none

/-- The `tools/invoke` branch (source lines 731-751): a name whose property
read finds nothing answers `-32601`; otherwise whatever the read found runs
under the inner try — a declared handler, or an inherited `Object.prototype`
member executed in a handler's place — its normal return wrapped as a
success and its thrown message wrapped as a `-32000` failure (the failure
path logs first, line 746). -/
def invokeBranch (request : Json) (logOk : Bool) (st : St) (w : World) :
    Except Unit (List Out) × St :=
  match lookupTool request with
  | none =>
    (sendErrorResponse logOk (jsF request "id") (-32601)
       ("Tool '" ++ jsToString (jsOptChain request "params" "name") ++ "' not found"),
     st)
  | some (.own h) =>
    match h (invokeArg request) st w with
    | (.ok result, st') => (sendResponse logOk (jsF request "id") (some result), st')
    | (.error m, st') =>
      (sendErrorResponse logOk (jsF request "id") (-32000)
         ("Tool execution error: " ++ m), st')
  | some (.inherited name) =>
    match protoInvoke name (invokeArg request) with
    | .ok result => (sendResponse logOk (jsF request "id") result, st)
    | .error m =>
      (sendErrorResponse logOk (jsF request "id") (-32000)
         ("Tool execution error: " ++ m), st)

/-- Method classification (source lines 699-760): the successive
strict-equality tests on `request.method`, ending in the `Method not found`
fallthrough; a non-string method fails every test. -/
def dispatchMethod (request : Json) (logOk : Bool) (st : St) (w : World) :
    Except Unit (List Out) × St :=
  match jsF request "method" with
  | some (.str m) =>
    if m = "initialize" then initializeBranch request logOk st
    else if m = "tools/list" then
      (sendResponse logOk (jsF request "id")
         (some (.obj [("tools", .arr (tools.map reshapeTool))])), st)
    else if m = "tools/invoke" then invokeBranch request logOk st w
    else if m = "notifications/initialized" then (.ok [], st)
    else
      (sendErrorResponse logOk (jsF request "id") (-32601) "Method not found", st)
  | _ =>
    (sendErrorResponse logOk (jsF request "id") (-32601) "Method not found", st)

/-- The try-block of the `rl.on('line')` callback (source lines 688-760)
after `JSON.parse` succeeded: log the request (line 690, raising when the log
file cannot be appended), test the version tag (`request.jsonrpc` itself
raises when the request is `null`), then classify the method. -/
def dispatchBody (request : Json) (logOk : Bool) (st : St) (w : World) :
    Except Unit (List Out) × St :=
  if !logOk then (.error (), st)
  else
    match field? (some request) "jsonrpc" with
    | .error _ => (.error (), st)
    | .ok v =>
      match v with
      | some (.str ver) =>
        if ver = "2.0" then dispatchMethod request logOk st w
        else
          (sendErrorResponse logOk (jsF request "id") (-32600)
             "Invalid Request: Not JSON-RPC 2.0", st)
      | _ =>
        (sendErrorResponse logOk (jsF request "id") (-32600)
           "Invalid Request: Not JSON-RPC 2.0", st)

/-- The catch of the callback (source lines 761-764): log the error (raising
again when appending still fails, which escapes the callback), then emit
`Failure{null, -32700, "Parse error"}`. -/
def catchClause (logOk : Bool) : Except Unit (List Out) :=
  if logOk then .ok [.failure (some .null) (-32700) "Parse error"]
  else .error ()

/-- One full line: `parsed` is `JSON.parse`'s outcome (`none` = the line is
not well-formed JSON and the parse threw).  An `.error ()` result is an
exception no catch swallowed: the async callback rejects and no further line
is processed. -/
def processLine : Option Json → Bool → St → World → Except Unit (List Out) × St
  | none, logOk, st, _ => (catchClause logOk, st)
  | some request, logOk, st, w =>
    match dispatchBody request logOk st w with
    | (.ok outs, st') => (.ok outs, st')
    | (.error _, st') => (catchClause logOk, st')

/-- The transport loop: lines in arrival order, outputs concatenated; an
escaped exception kills the process, dropping the rest of the stream. -/
def processLines (lines : List (Option Json)) (logOk : Bool) (st : St)
    (w : World) : List Out × St :=
  match lines with
  | [] => ([], st)
  | l :: ls =>
    match processLine l logOk st w with
    | (.ok outs, st') =>
      let (rest, st'') := processLines ls logOk st' w
      (outs ++ rest, st'')
    | (.error _, st') => ([], st')

/-- A well-formed request object carrying version tag `2.0`, an `id`, a
method and an optional `params` object. -/
def mkReq (id : Json) (method : String) (params : Option Json) : Json :=
  objOpt [
    ("jsonrpc", some (.str "2.0")),
    ("id", some id),
    ("method", some (.str method)),
    ("params", params)]

/-- A `tools/invoke` request for the named tool, with or without a
`parameters` field. -/
def mkInvoke (id : Json) (name : String) (pargs : Option Json) : Json :=
  mkReq id "tools/invoke"
    (some (objOpt [("name", some (.str name)), ("parameters", pargs)]))

/-- The configuration as process start leaves it (source line 31). -/
def st0 : St := ⟨.str "us-west-2"⟩

/-- A concrete world whose remote calls all reject; the claims settled at
concrete inputs never reach a remote call. -/
def w0 : World where
  ec2DescribeInstances := fun _ _ => .error "unavailable"
  s3ListBuckets := fun _ => .error "unavailable"
  s3ListObjectsV2 := fun _ _ => .error "unavailable"
  lambdaListFunctions := fun _ => .error "unavailable"
  dynamoListTables := fun _ => .error "unavailable"
  cwGetMetricStatistics := fun _ _ => .error "unavailable"
  nowMs := 0
  parseDateMs := fun _ => none

/-- The one parse-error envelope, `Failure{null, -32700, "Parse error"}`. -/
def parseErrOut : Out := .failure (some .null) (-32700) "Parse error"

/-- The `ping` success payload. -/
def pongJson : Json := .obj [("result", .str "pong")]

/-- Whether a parsed request is the one silent case: version tag `2.0` and
method `notifications/initialized`. -/
def isInitializedNotif (r : Json) : Bool :=
  match jsF r "jsonrpc", jsF r "method" with
  | some (.str v), some (.str m) => v = "2.0" && m = "notifications/initialized"
  | _, _ => false

/-- How `tools/invoke` wraps a registered handler's settled outcome (source
lines 741-748). -/
def invokeWrap (id : Option Json) : Except String Json → Out
  | .ok res => .success id (some res)
  | .error m => .failure id (-32000) ("Tool execution error: " ++ m)

/-- The same wrap for an inherited `Object.prototype` member's outcome,
whose normal value may be unserializable (`undefined` or a function). -/
def protoWrap (id : Option Json) : Except String (Option Json) → Out
  | .ok res => .success id res
  | .error m => .failure id (-32000) ("Tool execution error: " ++ m)

/-- Checks one `tools/list` descriptor: every name its
`inputSchema.required` lists is a key of `inputSchema.properties`. -/
def descriptorOk (d : Json) : Bool :=
  match jsF d "inputSchema" with
  | some schema =>
    match jsF schema "required", jsF schema "properties" with
    | some (.arr req), some (.obj props) =>
      req.all fun x =>
        match x with
        | .str s => props.any (fun p => p.1 = s)
        | _ => false
    | _, _ => false
  | none => false









theorem sendResponse_true (id : Option Json) (res : Option Json) :
    sendResponse true id res = .ok [.success id res] := rfl

theorem sendErrorResponse_true (id : Option Json) (c : Int) (m : String) :
    sendErrorResponse true id c m = .ok [.failure id c m] := rfl

theorem catchClause_true : catchClause true = .ok [parseErrOut] := rfl

theorem field?_some_ok {r : Json} {k : String} {v : Option Json}
    (h : field? (some r) k = .ok v) : jsF r k = v := by
  cases r <;> simp [field?, jsF] at h ⊢ <;> exact h

theorem isInitializedNotif_intro {r : Json}
    (h1 : jsF r "jsonrpc" = some (.str "2.0"))
    (h2 : jsF r "method" = some (.str "notifications/initialized")) :
    isInitializedNotif r = true := by
  unfold isInitializedNotif
  rw [h1, h2]
  rfl

theorem processLine_ok {r : Json} {st st' : St} {w : World} {outs : List Out}
    (hd : dispatchBody r true st w = (.ok outs, st')) :
    processLine (some r) true st w = (.ok outs, st') := by
  simp only [processLine]
  rw [hd]

theorem processLine_err {r : Json} {st st' : St} {w : World} {u : Unit}
    (hd : dispatchBody r true st w = (.error u, st')) :
    processLine (some r) true st w = (.ok [parseErrOut], st') := by
  simp only [processLine]
  rw [hd]
  rfl

theorem dispatch_notif {r : Json} (st : St) (w : World)
    (h : isInitializedNotif r = true) :
    dispatchBody r true st w = (.ok [], st) := by
  unfold isInitializedNotif at h
  split at h
  case _ v m hj hm =>
    simp only [Bool.and_eq_true, decide_eq_true_eq] at h
    obtain ⟨hv, hm2⟩ := h
    subst hv
    subst hm2
    cases r <;> simp [jsF] at hj hm
    case obj fs =>
      simp [dispatchBody, dispatchMethod, field?, jsF, hj, hm]
  case _ => simp at h

theorem jsF_some_obj {r : Json} {k : String} {v : Json} (h : jsF r k = some v) :
    ∃ fs, r = .obj fs := by
  cases r <;> simp [jsF] at h ⊢

theorem invokeBranch_notfound {r : Json} (st : St) (w : World)
    (hmiss : truthy (jsOptChain r "params" "name") = false ∨
      (toolHandlers (jsToString (jsOptChain r "params" "name")) = none ∧
        jsToString (jsOptChain r "params" "name") ∉ objectProtoMembers)) :
    invokeBranch r true st w =
      (.ok [.failure (jsF r "id") (-32601)
        ("Tool '" ++ jsToString (jsOptChain r "params" "name") ++ "' not found")],
       st) := by
  have hl : lookupTool r = none := by
    unfold lookupTool
    rcases hmiss with hm | ⟨hm, hp⟩
    · rw [hm]; rfl
    · rw [hm]
      simp [hp]
  unfold invokeBranch
  rw [hl, sendErrorResponse_true]

theorem invokeBranch_found {r : Json} (st : St) (w : World) (h : Handler)
    (ht : truthy (jsOptChain r "params" "name") = true)
    (hf : toolHandlers (jsToString (jsOptChain r "params" "name")) = some h) :
    invokeBranch r true st w =
      (.ok [invokeWrap (jsF r "id") (h (invokeArg r) st w).1],
       (h (invokeArg r) st w).2) := by
  have hl : lookupTool r = some (.own h) := by
    unfold lookupTool
    rw [ht, hf]
    rfl
  unfold invokeBranch
  rw [hl]
  rcases hres : h (invokeArg r) st w with ⟨o, st'⟩
  cases o with
  | ok res => simp [hres, sendResponse_true, invokeWrap]
  | error m => simp [hres, sendErrorResponse_true, invokeWrap]

theorem invokeBranch_inherited {r : Json} (st : St) (w : World)
    (ht : truthy (jsOptChain r "params" "name") = true)
    (hf : toolHandlers (jsToString (jsOptChain r "params" "name")) = none)
    (hp : jsToString (jsOptChain r "params" "name") ∈ objectProtoMembers) :
    invokeBranch r true st w =
      (.ok [protoWrap (jsF r "id")
        (protoInvoke (jsToString (jsOptChain r "params" "name")) (invokeArg r))],
       st) := by
  have hl : lookupTool r =
      some (.inherited (jsToString (jsOptChain r "params" "name"))) := by
    unfold lookupTool
    rw [ht, hf]
    simp [hp]
  unfold invokeBranch
  rw [hl]
  cases hres : protoInvoke (jsToString (jsOptChain r "params" "name")) (invokeArg r) with
  | ok res => simp [hres, sendResponse_true, protoWrap]
  | error m => simp [hres, sendErrorResponse_true, protoWrap]

theorem initializeBranch_shapes {r : Json} {st st' : St} {outs : List Out}
    (h : initializeBranch r true st = (.ok outs, st')) :
    ∃ id res, outs = [.success id res] := by
  unfold initializeBranch at h
  split at h
  · simp at h
  · rw [sendResponse_true] at h
    simp only [Prod.mk.injEq, Except.ok.injEq] at h
    exact ⟨_, _, h.1.symm⟩

theorem invokeBranch_shapes {r : Json} {st st' : St} {w : World} {outs : List Out}
    (h : invokeBranch r true st w = (.ok outs, st')) :
    (∃ id res, outs = [.success id res]) ∨
    (∃ id c m, outs = [.failure id c m] ∧ c ≠ (-32700 : Int)) := by
  unfold invokeBranch at h
  split at h
  · rw [sendErrorResponse_true] at h
    simp only [Prod.mk.injEq, Except.ok.injEq] at h
    exact Or.inr ⟨_, _, _, h.1.symm, by decide⟩
  · split at h
    · rw [sendResponse_true] at h
      simp only [Prod.mk.injEq, Except.ok.injEq] at h
      exact Or.inl ⟨_, _, h.1.symm⟩
    · rw [sendErrorResponse_true] at h
      simp only [Prod.mk.injEq, Except.ok.injEq] at h
      exact Or.inr ⟨_, _, _, h.1.symm, by decide⟩
  · split at h
    · rw [sendResponse_true] at h
      simp only [Prod.mk.injEq, Except.ok.injEq] at h
      exact Or.inl ⟨_, _, h.1.symm⟩
    · rw [sendErrorResponse_true] at h
      simp only [Prod.mk.injEq, Except.ok.injEq] at h
      exact Or.inr ⟨_, _, _, h.1.symm, by decide⟩

theorem dispatchMethod_shapes {r : Json} {st st' : St} {w : World} {outs : List Out}
    (h : dispatchMethod r true st w = (.ok outs, st')) :
    (outs = [] ∧ jsF r "method" = some (.str "notifications/initialized")) ∨
    (∃ id res, outs = [.success id res]) ∨
    (∃ id c m, outs = [.failure id c m] ∧ c ≠ (-32700 : Int)) := by
  unfold dispatchMethod at h
  split at h
  case _ m heqm =>
    split at h
    · exact Or.inr (Or.inl (initializeBranch_shapes h))
    · split at h
      · rw [sendResponse_true] at h
        simp only [Prod.mk.injEq, Except.ok.injEq] at h
        exact Or.inr (Or.inl ⟨_, _, h.1.symm⟩)
      · split at h
        · exact Or.inr (invokeBranch_shapes h)
        · split at h
          case _ hm4 =>
            simp only [Prod.mk.injEq, Except.ok.injEq] at h
            refine Or.inl ⟨h.1.symm, ?_⟩
            rw [heqm, hm4]
          case _ =>
            rw [sendErrorResponse_true] at h
            simp only [Prod.mk.injEq, Except.ok.injEq] at h
            exact Or.inr (Or.inr ⟨_, _, _, h.1.symm, by decide⟩)
  case _ =>
    rw [sendErrorResponse_true] at h
    simp only [Prod.mk.injEq, Except.ok.injEq] at h
    exact Or.inr (Or.inr ⟨_, _, _, h.1.symm, by decide⟩)

theorem dispatchBody_ok_shapes {r : Json} {st st' : St} {w : World} {outs : List Out}
    (h : dispatchBody r true st w = (.ok outs, st')) :
    (outs = [] ∧ isInitializedNotif r = true) ∨
    (∃ id res, outs = [.success id res]) ∨
    (∃ id c m, outs = [.failure id c m] ∧ c ≠ (-32700 : Int)) := by
  unfold dispatchBody at h
  simp only [Bool.not_true, Bool.false_eq_true, if_false] at h
  split at h
  case _ => simp at h
  case _ v heqv =>
    split at h
    case _ ver =>
      split at h
      case _ hver =>
        rcases dispatchMethod_shapes h with ⟨h1, h2⟩ | rest
        · subst hver
          exact Or.inl ⟨h1, isInitializedNotif_intro (field?_some_ok heqv) h2⟩
        · exact Or.inr rest
      case _ =>
        rw [sendErrorResponse_true] at h
        simp only [Prod.mk.injEq, Except.ok.injEq] at h
        exact Or.inr (Or.inr ⟨_, _, _, h.1.symm, by decide⟩)
    case _ =>
      rw [sendErrorResponse_true] at h
      simp only [Prod.mk.injEq, Except.ok.injEq] at h
      exact Or.inr (Or.inr ⟨_, _, _, h.1.symm, by decide⟩)

/-- C1 counterexample: `aws.ec2.describeVpcs` sits in the static catalog
served by `tools/list`, yet invoking it finds no handler — the server answers
`Failure{-32601, "Tool 'aws.ec2.describeVpcs' not found"}`, refuting the
claim that every listed tool has an executable handler. -/
theorem C1_counterexample :
    ("aws.ec2.describeVpcs" ∈ tools.map Tool.name) ∧
    processLine (some (mkInvoke (.num 1) "aws.ec2.describeVpcs" none)) true st0 w0 =
      (.ok [.failure (some (.num 1)) (-32601)
        "Tool 'aws.ec2.describeVpcs' not found"], st0) :=
  ⟨by decide, rfl⟩

/-- C1 amended: the registry lookup behind `tools/invoke` succeeds for a
listed tool exactly when its name is one of the seven handler-table keys;
the other fifteen catalog entries have no executable handler. -/
theorem C1_amended (n : String) (hn : n ∈ tools.map Tool.name) :
    (toolHandlers n).isSome ↔ n ∈ registeredNames := by
  fin_cases hn <;> decide

/-- C1 witness: `aws.iam.listUsers` is listed in the catalog but the
registry lookup on it fails. -/
theorem C1_witness :
    ("aws.iam.listUsers" ∈ tools.map Tool.name) ∧
    ¬(toolHandlers "aws.iam.listUsers").isSome := by
  refine ⟨by decide, fun h => ?_⟩
  have := (C1_amended "aws.iam.listUsers" (by decide)).mp h
  simp [registeredNames] at this

/-- C2 counterexample: a request with no `id` and an unrecognized method is
a notification by the claim's definition, yet the server writes an output
line — `Failure{-32601, "Method not found"}` with the `id` key dropped. -/
theorem C2_counterexample :
    processLine (some (.obj [("jsonrpc", .str "2.0"), ("method", .str "bogus")]))
        true st0 w0 =
      (.ok [.failure none (-32601) "Method not found"], st0) := rfl

/-- C2 amended: an id-less request is silent exactly when its version tag is
`2.0` and its method is `notifications/initialized`; every other id-less
request — unrecognized method, wrong version tag, failing handler — still
produces an output line. -/
theorem C2_amended (r : Json) (st : St) (w : World) (_hid : jsF r "id" = none) :
    (processLine (some r) true st w).1 = .ok [] ↔ isInitializedNotif r = true := by
  constructor
  · intro h
    rcases hd : dispatchBody r true st w with ⟨e, st'⟩
    cases e with
    | ok outs =>
      rw [processLine_ok hd] at h
      simp only [Except.ok.injEq] at h
      rcases dispatchBody_ok_shapes hd with ⟨_, hi⟩ | ⟨_, _, hx⟩ | ⟨_, _, _, hx, _⟩
      · exact hi
      · rw [h] at hx; simp at hx
      · rw [h] at hx; simp at hx
    | error u =>
      rw [processLine_err hd] at h
      simp [parseErrOut] at h
  · intro h
    rw [processLine_ok (dispatch_notif st w h)]

/-- C2 witness: the one silent id-less request, `notifications/initialized`,
indeed produces no output. -/
theorem C2_witness :
    (processLine (some (.obj [("jsonrpc", .str "2.0"),
        ("method", .str "notifications/initialized")])) true st0 w0).1 = .ok [] :=
  (C2_amended
    (.obj [("jsonrpc", .str "2.0"), ("method", .str "notifications/initialized")])
    st0 w0 rfl).mpr rfl

/-- C3 counterexample: `{"jsonrpc":"2.0","id":1,"method":"initialize"}` is a
well-formed request whose dispatch raises (`request.params.protocolVersion`
on absent `params`), yet the server answers with the parse-error code
`-32700` and a `null` id, not an internal-error code with id `1`. -/
theorem C3_counterexample :
    processLine (some (mkReq (.num 1) "initialize" none)) true st0 w0 =
      (.ok [parseErrOut], st0) := rfl

/-- C3 amended: an exception raised while dispatching a well-formed request
travels the same catch as a syntax failure: the response is
`Failure{null, -32700, "Parse error"}`, the request's id discarded — shown
for the two raising families, `initialize` with absent `params` (whatever
the id) and the well-formed line `null`. -/
theorem C3_amended :
    (∀ (id : Json) (st : St) (w : World),
      processLine (some (mkReq id "initialize" none)) true st w =
        (.ok [parseErrOut], st)) ∧
    (∀ (st : St) (w : World),
      processLine (some .null) true st w = (.ok [parseErrOut], st)) :=
  ⟨fun _ _ _ => rfl, fun _ _ => rfl⟩

/-- C4 counterexample: the line `null` is well-formed JSON, yet the server
emits `Failure{null, -32700, "Parse error"}` for it (reading `.jsonrpc` of
`null` raises into the catch) — refuting the claimed equivalence between the
parse-error response and a malformed line. -/
theorem C4_counterexample :
    processLine (some .null) true st0 w0 = (.ok [parseErrOut], st0) := rfl

/-- C4 amended: a malformed line yields exactly one
`Failure{null, -32700, "Parse error"}` and the loop continues with the next
line; but the same failure is also the response to any well-formed line
whose dispatch raises, so it marks a parse failure or a dispatch exception,
not parse failures alone. -/
theorem C4_amended :
    (∀ (st : St) (w : World),
      processLine none true st w = (.ok [parseErrOut], st)) ∧
    (∀ (ls : List (Option Json)) (st : St) (w : World),
      processLines (none :: ls) true st w =
        (parseErrOut :: (processLines ls true st w).1,
         (processLines ls true st w).2)) ∧
    (∀ (r : Json) (st : St) (w : World),
      (processLine (some r) true st w).1 = .ok [parseErrOut] ↔
        (dispatchBody r true st w).1 = .error ()) := by
  refine ⟨fun st w => rfl, fun ls st w => ?_, fun r st w => ?_⟩
  · show (match processLine none true st w with
      | (.ok outs, st') =>
        (outs ++ (processLines ls true st w).1, (processLines ls true st w).2)
      | (.error _, st') => ([], st')) = _
    rfl
  · constructor
    · intro h
      rcases hd : dispatchBody r true st w with ⟨e, st'⟩
      cases e with
      | ok outs =>
        rw [processLine_ok hd] at h
        simp only [Except.ok.injEq] at h
        rcases dispatchBody_ok_shapes hd with ⟨hx, _⟩ | ⟨_, _, hx⟩ | ⟨_, c, _, hx, hc⟩
        · rw [hx] at h; simp at h
        · rw [hx] at h
          simp [parseErrOut] at h
        · rw [hx] at h
          simp only [parseErrOut, List.cons.injEq, Out.failure.injEq, and_true] at h
          exact absurd h.2.1 hc
      | error u =>
        rfl
    · intro h
      rcases hd : dispatchBody r true st w with ⟨e, st'⟩
      cases e with
      | ok outs => rw [hd] at h; simp at h
      | error u => rw [processLine_err hd]

/-- C5 counterexample: a `notifications/initialized` request carrying the
non-null id `7` produces zero responses, refuting the claim that every
request with a non-null id produces exactly one. -/
theorem C5_counterexample :
    processLine (some (mkReq (.num 7) "notifications/initialized" none)) true st0 w0 =
      (.ok [], st0) := rfl

/-- C5 amended: a request with a non-null id produces exactly one response —
except method `notifications/initialized` under version tag `2.0`, which
produces none. -/
theorem C5_amended (r i : Json) (st : St) (w : World)
    (_hid : jsF r "id" = some i) (_hnn : i ≠ .null) :
    ∃ outs st', processLine (some r) true st w = (.ok outs, st') ∧
      outs.length = (if isInitializedNotif r then 0 else 1) := by
  by_cases hb : isInitializedNotif r = true
  · exact ⟨[], st, processLine_ok (dispatch_notif st w hb), by simp [hb]⟩
  · have hb' : isInitializedNotif r = false := by
      revert hb; cases isInitializedNotif r <;> simp
    rcases hd : dispatchBody r true st w with ⟨e, st'⟩
    cases e with
    | ok outs =>
      refine ⟨outs, st', processLine_ok hd, ?_⟩
      rcases dispatchBody_ok_shapes hd with ⟨_, hi⟩ | ⟨_, _, hx⟩ | ⟨_, _, _, hx, _⟩
      · rw [hi] at hb'; simp at hb'
      · simp [hx, hb']
      · simp [hx, hb']
    | error u =>
      exact ⟨[parseErrOut], st', processLine_err hd, by simp [hb']⟩

/-- C5 witness: a `tools/invoke` of `ping` with id `2` produces exactly one
response. -/
theorem C5_witness :
    ∃ outs st',
      processLine (some (mkInvoke (.num 2) "ping" (some (.obj [])))) true st0 w0 =
        (.ok outs, st') ∧ outs.length = 1 := by
  have h := C5_amended (mkInvoke (.num 2) "ping" (some (.obj []))) (.num 2) st0 w0
    rfl (by simp)
  simpa using h

/-- C6 counterexample, two independent refutations of the claim as stated.
First, `params.name = "toString"` names no registered handler, yet the
property read at line 736 finds the truthy inherited
`Object.prototype.toString`, which is executed in a handler's place and
answered as a *success* (`"[object Object]"`), not the `-32601` not-found
failure.  Second, a `tools/invoke` of `ping` whose `params.parameters` is
present as `false` does not hand the handler `params.parameters` — the
`|| {}` default replaces any falsy value, so the handler receives the empty
object instead. -/
theorem C6_counterexample :
    ("toString" ∉ registeredNames ∧
      processLine (some (mkInvoke (.num 4) "toString" none)) true st0 w0 =
        (.ok [.success (some (.num 4)) (some (.str "[object Object]"))], st0)) ∧
    (jsOptChain (mkInvoke (.num 2) "ping" (some (.bool false))) "params" "parameters" =
        some (.bool false) ∧
      invokeArg (mkInvoke (.num 2) "ping" (some (.bool false))) = .obj [] ∧
      Json.obj [] ≠ Json.bool false) :=
  ⟨⟨by decide, rfl⟩, rfl, rfl, by simp⟩

/-- C6 amended: a `params.name` that is falsy (in particular missing) or
names neither a registered handler nor an `Object.prototype` member answers
exactly `Failure{id, -32601, "Tool '<name>' not found"}` with the id echoed
and the configuration untouched (no handler runs); one of the seven
registered names invokes that handler with `params.parameters`, defaulted
to the empty object when that field is absent *or falsy*; and a name
matching an inherited `Object.prototype` member (`toString`, `constructor`,
`hasOwnProperty`, …) passes the existence check, so the inherited member is
executed in the handler's place and its outcome — not the `-32601`
failure — is wrapped as the response, the configuration again untouched. -/
theorem C6_amended :
    (∀ (r : Json) (st : St) (w : World),
      (truthy (jsOptChain r "params" "name") = false ∨
        (toolHandlers (jsToString (jsOptChain r "params" "name")) = none ∧
          jsToString (jsOptChain r "params" "name") ∉ objectProtoMembers)) →
      invokeBranch r true st w =
        (.ok [.failure (jsF r "id") (-32601)
          ("Tool '" ++ jsToString (jsOptChain r "params" "name") ++ "' not found")],
         st)) ∧
    (∀ (r : Json) (st : St) (w : World) (h : Handler),
      truthy (jsOptChain r "params" "name") = true →
      toolHandlers (jsToString (jsOptChain r "params" "name")) = some h →
      invokeBranch r true st w =
        (.ok [invokeWrap (jsF r "id") (h (invokeArg r) st w).1],
         (h (invokeArg r) st w).2)) ∧
    (∀ (r : Json) (st : St) (w : World),
      truthy (jsOptChain r "params" "name") = true →
      toolHandlers (jsToString (jsOptChain r "params" "name")) = none →
      jsToString (jsOptChain r "params" "name") ∈ objectProtoMembers →
      invokeBranch r true st w =
        (.ok [protoWrap (jsF r "id")
          (protoInvoke (jsToString (jsOptChain r "params" "name")) (invokeArg r))],
         st)) ∧
    (∀ r : Json, invokeArg r =
      match jsOptChain r "params" "parameters" with
      | some v => if truthy (some v) then v else .obj []
      | none => .obj []) := by
  refine ⟨fun r st w hmiss => invokeBranch_notfound st w hmiss,
    fun r st w h ht hf => invokeBranch_found st w h ht hf,
    fun r st w ht hf hp => invokeBranch_inherited st w ht hf hp,
    fun r => ?_⟩
  · unfold invokeArg jsOr
    rcases hc : jsOptChain r "params" "parameters" with _ | v
    · rfl
    · by_cases hv : truthy (some v) = true
      · simp [hv]
      · have hv' : truthy (some v) = false := by
          revert hv; cases truthy (some v) <;> simp
        simp [hv']

/-- C6 witness: the unregistered, non-inherited name `nope` answers the
`-32601` not-found failure with the id echoed and the configuration
untouched, while the inherited name `hasOwnProperty` is executed in a
handler's place and answered as a success. -/
theorem C6_witness :
    invokeBranch (mkInvoke (.num 5) "nope" none) true st0 w0 =
      (.ok [.failure (some (.num 5)) (-32601) "Tool 'nope' not found"], st0) ∧
    invokeBranch (mkInvoke (.num 6) "hasOwnProperty" none) true st0 w0 =
      (.ok [.success (some (.num 6)) (some (.bool false))], st0) :=
  ⟨C6_amended.1 (mkInvoke (.num 5) "nope" none) st0 w0 (Or.inr ⟨rfl, by decide⟩),
   C6_amended.2.2.1 (mkInvoke (.num 6) "hasOwnProperty" none) st0 w0 rfl rfl
     (by decide)⟩

/-- C7: a `tools/invoke` of a registered handler wraps the handler's settled
outcome and nothing else: a normal return becomes the success result, a
raised/rejected message `m` becomes
`Failure{id, -32000, "Tool execution error: " ++ m}`, and either way the
fault stops at the invocation boundary — the transport loop still emits
exactly one response. -/
theorem C7_tools_invoke_wrap (r : Json) (st : St) (w : World) (h : Handler)
    (hver : jsF r "jsonrpc" = some (.str "2.0"))
    (hm : jsF r "method" = some (.str "tools/invoke"))
    (hname : truthy (jsOptChain r "params" "name") = true)
    (hfound : toolHandlers (jsToString (jsOptChain r "params" "name")) = some h) :
    processLine (some r) true st w =
      (.ok [invokeWrap (jsF r "id") (h (invokeArg r) st w).1],
       (h (invokeArg r) st w).2) := by
  have hbody : dispatchBody r true st w =
      (.ok [invokeWrap (jsF r "id") (h (invokeArg r) st w).1],
       (h (invokeArg r) st w).2) := by
    have hb := invokeBranch_found st w h hname hfound
    obtain ⟨fs, rfl⟩ := jsF_some_obj hver
    simp only [jsF] at hver hm
    unfold dispatchBody dispatchMethod
    simp [field?, jsF, hver, hm, hb]
  rw [processLine_ok hbody]

/-- C7 witness: invoking `aws.s3.listObjects` without a bucket makes the
handler throw `Bucket name is required`, and the response is exactly the
`-32000` wrap of that message. -/
theorem C7_witness :
    processLine (some (mkInvoke (.num 3) "aws.s3.listObjects" none)) true st0 w0 =
      (.ok [.failure (some (.num 3)) (-32000)
        "Tool execution error: Bucket name is required"], st0) :=
  C7_tools_invoke_wrap (mkInvoke (.num 3) "aws.s3.listObjects" none) st0 w0
    s3ListObjectsHandler rfl rfl rfl rfl

/-- C8: `tools/list` answers with one reshaped descriptor per catalog entry,
in registration order (the map over `tools`); the descriptor count equals
the registered count, and every descriptor's `inputSchema.required` names
form a subset of its `inputSchema.properties` keys. -/
theorem C8_tools_list :
    (∀ (id : Json) (st : St) (w : World),
      processLine (some (mkReq id "tools/list" none)) true st w =
        (.ok [.success (some id)
          (some (.obj [("tools", .arr (tools.map reshapeTool))]))], st)) ∧
    (tools.map reshapeTool).length = tools.length ∧
    (tools.map reshapeTool).all descriptorOk = true :=
  ⟨fun _ _ _ => rfl, by simp, by rfl⟩

/-- C9: `ping` is deterministic, idempotent and effect-free: the handler
returns `{result: "pong"}` and leaves the configuration untouched whatever
its parameters and whatever state earlier invocations left behind, and a
full `tools/invoke` of `ping` — with any `parameters` value or none —
answers `{"result":"pong"}` and changes no state. -/
theorem C9_ping_idempotent :
    (∀ (p : Json) (st : St) (w : World), pingHandler p st w = (.ok pongJson, st)) ∧
    (∀ (id args : Json) (st : St) (w : World),
      processLine (some (mkInvoke id "ping" (some args))) true st w =
        (.ok [.success (some id) (some pongJson)], st)) ∧
    (∀ (id : Json) (st : St) (w : World),
      processLine (some (mkInvoke id "ping" none)) true st w =
        (.ok [.success (some id) (some pongJson)], st)) :=
  ⟨fun _ _ _ => rfl, fun _ _ _ _ => rfl, fun _ _ _ => rfl⟩

/-- C10: the claim (a logging fault never changes, suppresses or replaces
the protocol response) is the spec's stated intent, but `log` appends with
no exception handling of its own, so when the log file cannot be appended a
valid `ping` invocation produces no response at all — the append exception
raised inside the catch escapes the callback — whereas with a working log
the same line is answered normally. -/
theorem C10_log_failure :
    processLine (some (mkInvoke (.num 2) "ping" none)) false st0 w0 =
      (.error (), st0) ∧
    processLine (some (mkInvoke (.num 2) "ping" none)) true st0 w0 =
      (.ok [.success (some (.num 2)) (some pongJson)], st0) :=
  ⟨rfl, rfl⟩

end AwsMcp
